import Mathlib

/-!
Shallow embedding of the paginated, rate-limited search-and-aggregation
routines of the lima-catalog experiment scripts, together with theorems
settling the specified behavioural claims.

The embedded functions are:

* `ExperimentSearch.search_code` — the paginated code-search collector of
  experiment_search.py (page size 100, 2-second inter-request sleep,
  default max_results 1000);
* `ExperimentForkSearch.search_code` — the copy of the same collector in
  experiment_fork_search.py (default max_results 100);
* `ExperimentForkSearch.list_forks` — the fork-listing collector of
  experiment_fork_search.py (page size 100, 0.5-second sleep, stops on a
  short page, raises on every 4xx/5xx status).

The HTTP layer is abstracted as a pure service function mapping the request
parameters the script sends (query / per_page / page, and for the forks
endpoint owner / repo / per_page / page / sort) to a structured response.
A run of a collector is a value of type Except Nat (RunResult α): the
error case models the HTTPError exception raised by raise_for_status
(carrying the offending status code and no records), the ok case carries
the accumulated records together with the number of page requests issued
and the list of sleep durations invoked (in seconds).

The Python while-loops are embedded as fuel recursion with initial fuel
max_results.toNat + 1.  The fuel is provably irrelevant: every iteration
that recurses appends a non-empty page, and the loop only recurses while
the accumulated length is below max_results, so the fuel can never be
exhausted before the loop guard fails (lemmas collectLoop_fuel_irrelevant
and listForksLoop_fuel_irrelevant make this precise).
-/

namespace LimaCatalog

/-- One response from the paged code-search endpoint, as the scripts see it
after response.json(): an HTTP status code, the items list (data.get with
default [] — a missing field is the empty list), and the optional
total_count field (data.get with default 0 models a missing field as
none, read back with getD 0). -/
structure Response (α : Type) where
  status : Nat
  items : List α
  total_count : Option Int
deriving Repr, DecidableEq

/-- The outcome of a completed collection run: the accumulated records in
arrival order, the number of page requests issued, and the sleep calls
performed (each entry one time.sleep duration, in seconds, in order). -/
structure RunResult (α : Type) where
  records : List α
  requests : Nat
  sleeps : List ℚ
deriving Repr, DecidableEq

/-- The abstracted search service: a pure function from the request
parameters the script sends (q, per_page, page) to the response. -/
abbrev SearchService (α : Type) : Type := String → Nat → Nat → Response α

namespace ExperimentSearch

/-- The while-loop of search_code in experiment_search.py, one fuel tick per
iteration.  Each iteration: check len(results) < max_results; issue the page
request; break on status 403; break on status 422; raise_for_status (raises
HTTPError exactly on 4xx/5xx); break if items is empty; extend results;
break if len(results) >= data.get('total_count', 0) or
len(results) >= max_results; else increment page, time.sleep(2), continue. -/
def collectLoop (service : SearchService α) (query : String) (perPage : Nat)
    (maxResults : Int) (page : Nat) (acc : List α) (reqs : Nat)
    (sleeps : List ℚ) : Nat → Except Nat (RunResult α)
  | 0 => .ok ⟨acc, reqs, sleeps⟩
  | fuel + 1 =>
    if (acc.length : Int) < maxResults then
      let resp := service query perPage page
      if resp.status = 403 then
        .ok ⟨acc, reqs + 1, sleeps⟩
      else if resp.status = 422 then
        .ok ⟨acc, reqs + 1, sleeps⟩
      else if 400 ≤ resp.status ∧ resp.status < 600 then
        .error resp.status
      else if resp.items.isEmpty then
        .ok ⟨acc, reqs + 1, sleeps⟩
      else
        let acc2 := acc ++ resp.items
        if resp.total_count.getD 0 ≤ (acc2.length : Int) ∨
            maxResults ≤ (acc2.length : Int) then
          .ok ⟨acc2, reqs + 1, sleeps⟩
        else
          collectLoop service query perPage maxResults (page + 1) acc2
            (reqs + 1) (sleeps ++ [2]) fuel
    else .ok ⟨acc, reqs, sleeps⟩

/-- search_code of experiment_search.py: results = [], page = 1,
per_page = 100, loop while len(results) < max_results. -/
def search_code (service : SearchService α) (query : String)
    (maxResults : Int := 1000) : Except Nat (RunResult α) :=
  collectLoop service query 100 maxResults 1 [] 0 [] (maxResults.toNat + 1)

end ExperimentSearch

namespace ExperimentForkSearch

/-- The while-loop of search_code in experiment_fork_search.py.  The loop
body is line-for-line the logic of the experiment_search.py loop (it only
omits the progress printing, which produces no value). -/
def collectLoop (service : SearchService α) (query : String) (perPage : Nat)
    (maxResults : Int) (page : Nat) (acc : List α) (reqs : Nat)
    (sleeps : List ℚ) : Nat → Except Nat (RunResult α)
  | 0 => .ok ⟨acc, reqs, sleeps⟩
  | fuel + 1 =>
    if (acc.length : Int) < maxResults then
      let resp := service query perPage page
      if resp.status = 403 then
        .ok ⟨acc, reqs + 1, sleeps⟩
      else if resp.status = 422 then
        .ok ⟨acc, reqs + 1, sleeps⟩
      else if 400 ≤ resp.status ∧ resp.status < 600 then
        .error resp.status
      else if resp.items.isEmpty then
        .ok ⟨acc, reqs + 1, sleeps⟩
      else
        let acc2 := acc ++ resp.items
        if resp.total_count.getD 0 ≤ (acc2.length : Int) ∨
            maxResults ≤ (acc2.length : Int) then
          .ok ⟨acc2, reqs + 1, sleeps⟩
        else
          collectLoop service query perPage maxResults (page + 1) acc2
            (reqs + 1) (sleeps ++ [2]) fuel
    else .ok ⟨acc, reqs, sleeps⟩

/-- search_code of experiment_fork_search.py: identical loop, default
max_results = 100. -/
def search_code (service : SearchService α) (query : String)
    (maxResults : Int := 100) : Except Nat (RunResult α) :=
  collectLoop service query 100 maxResults 1 [] 0 [] (maxResults.toNat + 1)

/-- One response from the forks listing endpoint: the body is directly a
JSON array of fork descriptors. -/
structure ForkResponse (α : Type) where
  status : Nat
  items : List α
deriving Repr, DecidableEq

/-- The abstracted forks listing service: a pure function from the request
parameters the script sends (owner, repo, per_page, page, sort) to the
response. -/
abbrev ForkService (α : Type) : Type :=
  String → String → Nat → Nat → String → ForkResponse α

/-- The while-loop of list_forks in experiment_fork_search.py.  Each
iteration: check len(forks) < max_forks; issue the page request with
sort = stargazers; raise_for_status (raises on every 4xx/5xx status,
including 403); break if the body is empty; extend forks; break if
len(items) < per_page (short page); else increment page, time.sleep(0.5),
continue. -/
def listForksLoop (service : ForkService α) (owner repo : String)
    (perPage : Nat) (maxForks : Int) (page : Nat) (acc : List α)
    (reqs : Nat) (sleeps : List ℚ) : Nat → Except Nat (RunResult α)
  | 0 => .ok ⟨acc, reqs, sleeps⟩
  | fuel + 1 =>
    if (acc.length : Int) < maxForks then
      let resp := service owner repo perPage page "stargazers"
      if 400 ≤ resp.status ∧ resp.status < 600 then
        .error resp.status
      else if resp.items.isEmpty then
        .ok ⟨acc, reqs + 1, sleeps⟩
      else
        let acc2 := acc ++ resp.items
        if resp.items.length < perPage then
          .ok ⟨acc2, reqs + 1, sleeps⟩
        else
          listForksLoop service owner repo perPage maxForks (page + 1) acc2
            (reqs + 1) (sleeps ++ [1/2]) fuel
    else .ok ⟨acc, reqs, sleeps⟩

/-- list_forks of experiment_fork_search.py: forks = [], page = 1,
per_page = 100, default max_forks = 100. -/
def list_forks (service : ForkService α) (owner repo : String)
    (maxForks : Int := 100) : Except Nat (RunResult α) :=
  listForksLoop service owner repo 100 maxForks 1 [] 0 [] (maxForks.toNat + 1)

end ExperimentForkSearch

/-- The same service with the total_count field of every response replaced
by an explicit 0 — used to state that a missing total_count is treated as
0. -/
def withZeroTotal {α : Type} (service : SearchService α) : SearchService α :=
  fun query perPage page =>
    ⟨(service query perPage page).status, (service query perPage page).items,
      some 0⟩

/-- Concrete service: one full page of three records, then throttled
(403) pages. -/
def wsvcC1 : SearchService Nat := fun _ _ page =>
  if page = 1 then ⟨200, [10, 11, 12], some 9⟩ else ⟨403, [], some 9⟩

/-- Concrete service: every page is a 500 server error. -/
def wsvcC2 : SearchService Nat := fun _ _ _ => ⟨500, [], some 0⟩

/-- Concrete service: every page is a full page of 100 records. -/
def wsvcC3 : SearchService Nat := fun _ _ _ => ⟨200, List.range 100, some 1000⟩

/-- Concrete service: a successful non-empty page whose body lacks the
total_count field. -/
def wsvcC4 : SearchService Nat := fun _ _ _ => ⟨200, [5, 6], none⟩

/-- Concrete service: a successful empty page whose body lacks the
total_count field. -/
def wsvcC4b : SearchService Nat := fun _ _ _ => ⟨200, [], none⟩

/-- Concrete service: three pages of 100, 100 and 50 records with
total_count 250. -/
def wsvcC5 : SearchService Nat := fun _ _ page =>
  if page = 1 then ⟨200, List.range 100, some 250⟩
  else if page = 2 then ⟨200, (List.range 100).map (· + 100), some 250⟩
  else ⟨200, (List.range 50).map (· + 200), some 250⟩

/-- Concrete service: every page is successful and empty. -/
def wsvcC6 : SearchService Nat := fun _ _ _ => ⟨200, [], some 0⟩

/-- Concrete service: a successful one-record page (never to be fetched
when max_results is non-positive). -/
def wsvcC7 : SearchService Nat := fun _ _ _ => ⟨200, [1], some 5⟩

/-- Concrete service: total_count 57 with all 57 records on page 1. -/
def wsvcC8 : SearchService Nat := fun _ _ _ => ⟨200, List.range 57, some 57⟩

/-- Concrete forks service: every page is throttled (403). -/
def wsvcC10a : ExperimentForkSearch.ForkService Nat :=
  fun _ _ _ _ _ => ⟨403, []⟩

/-- Concrete forks service: a single short page of 30 forks. -/
def wsvcC10b : ExperimentForkSearch.ForkService Nat :=
  fun _ _ _ _ _ => ⟨200, List.range 30⟩

namespace ExperimentSearch

section StepLemmas

variable {α : Type} {service : SearchService α} {query : String}
  {perPage : Nat} {maxResults : Int} {page : Nat} {acc : List α}
  {reqs : Nat} {sleeps : List ℚ} {fuel : Nat}

/-- When the while-guard fails the loop returns the state unchanged,
whatever the fuel. -/
theorem collectLoop_guard_false
    (h : ¬ ((acc.length : Int) < maxResults)) :
    collectLoop service query perPage maxResults page acc reqs sleeps fuel
      = .ok ⟨acc, reqs, sleeps⟩ := by
  cases fuel with
  | zero => rfl
  | succ fuel => simp [collectLoop, h]

/-- A page answered with status 403 or 422 ends the loop, returning the
records accumulated so far. -/
theorem collectLoop_throttled_or_rejected
    (hguard : (acc.length : Int) < maxResults)
    (hst : (service query perPage page).status = 403 ∨
      (service query perPage page).status = 422) :
    collectLoop service query perPage maxResults page acc reqs sleeps
      (fuel + 1) = .ok ⟨acc, reqs + 1, sleeps⟩ := by
  rcases hst with hst | hst <;> simp [collectLoop, hguard, hst]

/-- A page answered with any other 4xx/5xx status makes the loop raise
(raise_for_status), discarding the accumulated records. -/
theorem collectLoop_fatal
    (hguard : (acc.length : Int) < maxResults)
    (h403 : (service query perPage page).status ≠ 403)
    (h422 : (service query perPage page).status ≠ 422)
    (hlo : 400 ≤ (service query perPage page).status)
    (hhi : (service query perPage page).status < 600) :
    collectLoop service query perPage maxResults page acc reqs sleeps
      (fuel + 1) = .error (service query perPage page).status := by
  simp [collectLoop, hguard, h403, h422, hlo, hhi]

/-- A page that passes raise_for_status but carries an empty items list
ends the loop (exhaustion), returning the records accumulated so far. -/
theorem collectLoop_empty_page
    (hguard : (acc.length : Int) < maxResults)
    (h403 : (service query perPage page).status ≠ 403)
    (h422 : (service query perPage page).status ≠ 422)
    (hfatal : ¬ (400 ≤ (service query perPage page).status ∧
      (service query perPage page).status < 600))
    (hempty : (service query perPage page).items = []) :
    collectLoop service query perPage maxResults page acc reqs sleeps
      (fuel + 1) = .ok ⟨acc, reqs + 1, sleeps⟩ := by
  simp [collectLoop, hguard, h403, h422, hfatal, hempty]

/-- A successful non-empty page whose extension reaches total_count or
max_results ends the loop with the page appended. -/
theorem collectLoop_last_page
    (hguard : (acc.length : Int) < maxResults)
    (h403 : (service query perPage page).status ≠ 403)
    (h422 : (service query perPage page).status ≠ 422)
    (hfatal : ¬ (400 ≤ (service query perPage page).status ∧
      (service query perPage page).status < 600))
    (hne : (service query perPage page).items ≠ [])
    (hstop : (service query perPage page).total_count.getD 0 ≤
        ((acc ++ (service query perPage page).items).length : Int) ∨
      maxResults ≤ ((acc ++ (service query perPage page).items).length : Int)) :
    collectLoop service query perPage maxResults page acc reqs sleeps
      (fuel + 1)
      = .ok ⟨acc ++ (service query perPage page).items, reqs + 1, sleeps⟩ := by
  have hEmpty : ¬ ((service query perPage page).items.isEmpty = true) := by
    simpa using hne
  simp only [collectLoop]
  rw [if_pos hguard, if_neg h403, if_neg h422, if_neg hfatal, if_neg hEmpty,
    if_pos hstop]

/-- A successful non-empty page whose extension reaches neither
total_count nor max_results makes the loop sleep 2 seconds and continue
with the next page. -/
theorem collectLoop_continue
    (hguard : (acc.length : Int) < maxResults)
    (h403 : (service query perPage page).status ≠ 403)
    (h422 : (service query perPage page).status ≠ 422)
    (hfatal : ¬ (400 ≤ (service query perPage page).status ∧
      (service query perPage page).status < 600))
    (hne : (service query perPage page).items ≠ [])
    (hgo : ¬ ((service query perPage page).total_count.getD 0 ≤
        ((acc ++ (service query perPage page).items).length : Int) ∨
      maxResults ≤ ((acc ++ (service query perPage page).items).length : Int))) :
    collectLoop service query perPage maxResults page acc reqs sleeps
      (fuel + 1)
      = collectLoop service query perPage maxResults (page + 1)
          (acc ++ (service query perPage page).items) (reqs + 1)
          (sleeps ++ [2]) fuel := by
  have hEmpty : ¬ ((service query perPage page).items.isEmpty = true) := by
    simpa using hne
  simp only [collectLoop]
  rw [if_pos hguard, if_neg h403, if_neg h422, if_neg hfatal, if_neg hEmpty,
    if_neg hgo]

end StepLemmas

/-- Faithfulness of the fuel embedding: as soon as the fuel dominates the
number of records the while-guard still allows, adding more fuel does not
change the outcome.  Every iteration that recurses appends a non-empty
page, so the guard fails before the fuel can run out. -/
theorem collectLoop_fuel_irrelevant {α : Type} (service : SearchService α)
    (query : String) (perPage : Nat) (maxResults : Int) :
    ∀ (fuel extra page : Nat) (acc : List α) (reqs : Nat) (sleeps : List ℚ),
      maxResults ≤ (acc.length : Int) + fuel →
      collectLoop service query perPage maxResults page acc reqs sleeps
          (fuel + extra)
        = collectLoop service query perPage maxResults page acc reqs sleeps
            fuel := by
  intro fuel
  induction fuel with
  | zero =>
    intro extra page acc reqs sleeps h
    rw [collectLoop_guard_false (by omega), collectLoop_guard_false (by omega)]
  | succ fuel ih =>
    intro extra page acc reqs sleeps h
    have hstep : fuel + 1 + extra = (fuel + extra) + 1 := by omega
    rw [hstep]
    by_cases hg : (acc.length : Int) < maxResults
    · by_cases h403 : (service query perPage page).status = 403
      · rw [collectLoop_throttled_or_rejected hg (Or.inl h403),
          collectLoop_throttled_or_rejected hg (Or.inl h403)]
      by_cases h422 : (service query perPage page).status = 422
      · rw [collectLoop_throttled_or_rejected hg (Or.inr h422),
          collectLoop_throttled_or_rejected hg (Or.inr h422)]
      by_cases hfatal : 400 ≤ (service query perPage page).status ∧
          (service query perPage page).status < 600
      · rw [collectLoop_fatal hg h403 h422 hfatal.1 hfatal.2,
          collectLoop_fatal hg h403 h422 hfatal.1 hfatal.2]
      by_cases hempty : (service query perPage page).items = []
      · rw [collectLoop_empty_page hg h403 h422 hfatal hempty,
          collectLoop_empty_page hg h403 h422 hfatal hempty]
      by_cases hstop : (service query perPage page).total_count.getD 0 ≤
          ((acc ++ (service query perPage page).items).length : Int) ∨
          maxResults ≤ ((acc ++ (service query perPage page).items).length : Int)
      · rw [collectLoop_last_page hg h403 h422 hfatal hempty hstop,
          collectLoop_last_page hg h403 h422 hfatal hempty hstop]
      · rw [collectLoop_continue hg h403 h422 hfatal hempty hstop,
          collectLoop_continue hg h403 h422 hfatal hempty hstop]
        have hpos : 0 < (service query perPage page).items.length :=
          List.length_pos.mpr hempty
        exact ih extra (page + 1) (acc ++ (service query perPage page).items)
          (reqs + 1) (sleeps ++ [2]) (by simp; omega)
    · rw [collectLoop_guard_false hg, collectLoop_guard_false hg]

/-- When every error status the service emits is 403 or 422 the collector
never raises: every run ends in an ok value. -/
theorem collectLoop_no_raise {α : Type} (service : SearchService α)
    (query : String) (perPage : Nat) (maxResults : Int)
    (hsvc : ∀ page, 400 ≤ (service query perPage page).status →
      (service query perPage page).status = 403 ∨
      (service query perPage page).status = 422) :
    ∀ (fuel page : Nat) (acc : List α) (reqs : Nat) (sleeps : List ℚ),
      ∃ r : RunResult α,
        collectLoop service query perPage maxResults page acc reqs sleeps fuel
          = .ok r := by
  intro fuel
  induction fuel with
  | zero => intro page acc reqs sleeps; exact ⟨⟨acc, reqs, sleeps⟩, rfl⟩
  | succ fuel ih =>
    intro page acc reqs sleeps
    by_cases hg : (acc.length : Int) < maxResults
    · by_cases h403 : (service query perPage page).status = 403
      · exact ⟨_, collectLoop_throttled_or_rejected hg (Or.inl h403)⟩
      by_cases h422 : (service query perPage page).status = 422
      · exact ⟨_, collectLoop_throttled_or_rejected hg (Or.inr h422)⟩
      have hfatal : ¬ (400 ≤ (service query perPage page).status ∧
          (service query perPage page).status < 600) := by
        intro hc
        rcases hsvc page hc.1 with h | h
        · exact h403 h
        · exact h422 h
      by_cases hempty : (service query perPage page).items = []
      · exact ⟨_, collectLoop_empty_page hg h403 h422 hfatal hempty⟩
      by_cases hstop : (service query perPage page).total_count.getD 0 ≤
          ((acc ++ (service query perPage page).items).length : Int) ∨
          maxResults ≤ ((acc ++ (service query perPage page).items).length : Int)
      · exact ⟨_, collectLoop_last_page hg h403 h422 hfatal hempty hstop⟩
      · rw [collectLoop_continue hg h403 h422 hfatal hempty hstop]
        exact ih (page + 1) (acc ++ (service query perPage page).items)
          (reqs + 1) (sleeps ++ [2])
    · exact ⟨⟨acc, reqs, sleeps⟩, collectLoop_guard_false hg⟩

/-- Accounting of the sleep calls: an ok run extends the sleep list by some
number k of 2-second sleeps and, unless the guard already failed on entry
(no iteration at all), issues exactly k + 1 page requests — each sleep sits
strictly between two requests. -/
theorem collectLoop_sleeps_spec {α : Type} (service : SearchService α)
    (query : String) (perPage : Nat) (maxResults : Int) :
    ∀ (fuel page : Nat) (acc : List α) (reqs : Nat) (sleeps : List ℚ)
      (r : RunResult α),
      maxResults ≤ (acc.length : Int) + fuel →
      collectLoop service query perPage maxResults page acc reqs sleeps fuel
        = .ok r →
      ∃ k, r.sleeps = sleeps ++ List.replicate k 2 ∧
        (r.requests = reqs + k + 1 ∨
          (k = 0 ∧ r.requests = reqs ∧
            ¬ ((acc.length : Int) < maxResults))) := by
  intro fuel
  induction fuel with
  | zero =>
    intro page acc reqs sleeps r h hr
    rw [collectLoop_guard_false (by omega)] at hr
    cases hr
    exact ⟨0, by simp, Or.inr ⟨rfl, rfl, by omega⟩⟩
  | succ fuel ih =>
    intro page acc reqs sleeps r h hr
    by_cases hg : (acc.length : Int) < maxResults
    · by_cases h403 : (service query perPage page).status = 403
      · rw [collectLoop_throttled_or_rejected hg (Or.inl h403)] at hr
        cases hr
        exact ⟨0, by simp, Or.inl rfl⟩
      by_cases h422 : (service query perPage page).status = 422
      · rw [collectLoop_throttled_or_rejected hg (Or.inr h422)] at hr
        cases hr
        exact ⟨0, by simp, Or.inl rfl⟩
      by_cases hfatal : 400 ≤ (service query perPage page).status ∧
          (service query perPage page).status < 600
      · rw [collectLoop_fatal hg h403 h422 hfatal.1 hfatal.2] at hr
        cases hr
      by_cases hempty : (service query perPage page).items = []
      · rw [collectLoop_empty_page hg h403 h422 hfatal hempty] at hr
        cases hr
        exact ⟨0, by simp, Or.inl rfl⟩
      by_cases hstop : (service query perPage page).total_count.getD 0 ≤
          ((acc ++ (service query perPage page).items).length : Int) ∨
          maxResults ≤ ((acc ++ (service query perPage page).items).length : Int)
      · rw [collectLoop_last_page hg h403 h422 hfatal hempty hstop] at hr
        cases hr
        exact ⟨0, by simp, Or.inl rfl⟩
      · rw [collectLoop_continue hg h403 h422 hfatal hempty hstop] at hr
        have hpos : 0 < (service query perPage page).items.length :=
          List.length_pos.mpr hempty
        obtain ⟨k, hsl, hreq⟩ := ih (page + 1)
          (acc ++ (service query perPage page).items) (reqs + 1)
          (sleeps ++ [2]) r (by simp; omega) hr
        rcases hreq with hreq | ⟨hk, hreq, hng⟩
        · refine ⟨k + 1, ?_, Or.inl (by omega)⟩
          rw [hsl]
          simp [List.replicate_succ]
        · exfalso
          push_neg at hstop
          exact hng hstop.2
    · rw [collectLoop_guard_false hg] at hr
      cases hr
      exact ⟨0, by simp, Or.inr ⟨rfl, rfl, hg⟩⟩

/-- The loop reads the total_count field only through getD 0: two services
agreeing on status, items and getD-0 total_count produce identical runs. -/
theorem collectLoop_congr {α : Type} (s t : SearchService α)
    (query : String) (perPage : Nat)
    (hst : ∀ page, (s query perPage page).status
      = (t query perPage page).status)
    (hit : ∀ page, (s query perPage page).items
      = (t query perPage page).items)
    (htc : ∀ page, (s query perPage page).total_count.getD 0
      = (t query perPage page).total_count.getD 0) :
    ∀ (fuel : Nat) (maxResults : Int) (page : Nat) (acc : List α)
      (reqs : Nat) (sleeps : List ℚ),
      collectLoop s query perPage maxResults page acc reqs sleeps fuel
        = collectLoop t query perPage maxResults page acc reqs sleeps fuel := by
  intro fuel
  induction fuel with
  | zero => intro maxResults page acc reqs sleeps; rfl
  | succ fuel ih =>
    intro maxResults page acc reqs sleeps
    by_cases hg : (acc.length : Int) < maxResults
    · by_cases h403 : (s query perPage page).status = 403
      · rw [collectLoop_throttled_or_rejected hg (Or.inl h403),
          collectLoop_throttled_or_rejected hg (Or.inl ((hst page) ▸ h403))]
      by_cases h422 : (s query perPage page).status = 422
      · rw [collectLoop_throttled_or_rejected hg (Or.inr h422),
          collectLoop_throttled_or_rejected hg (Or.inr ((hst page) ▸ h422))]
      by_cases hfatal : 400 ≤ (s query perPage page).status ∧
          (s query perPage page).status < 600
      · rw [collectLoop_fatal hg h403 h422 hfatal.1 hfatal.2,
          collectLoop_fatal hg ((hst page) ▸ h403) ((hst page) ▸ h422)
            ((hst page) ▸ hfatal.1) ((hst page) ▸ hfatal.2), hst page]
      by_cases hempty : (s query perPage page).items = []
      · rw [collectLoop_empty_page hg h403 h422 hfatal hempty,
          collectLoop_empty_page hg ((hst page) ▸ h403) ((hst page) ▸ h422)
            ((hst page) ▸ hfatal) ((hit page) ▸ hempty)]
      by_cases hstop : (s query perPage page).total_count.getD 0 ≤
          ((acc ++ (s query perPage page).items).length : Int) ∨
          maxResults ≤ ((acc ++ (s query perPage page).items).length : Int)
      · rw [collectLoop_last_page hg h403 h422 hfatal hempty hstop,
          collectLoop_last_page hg ((hst page) ▸ h403) ((hst page) ▸ h422)
            ((hst page) ▸ hfatal) ((hit page) ▸ hempty)
            (by rw [← hit page, ← htc page]; exact hstop), hit page]
      · rw [collectLoop_continue hg h403 h422 hfatal hempty hstop,
          collectLoop_continue hg ((hst page) ▸ h403) ((hst page) ▸ h422)
            ((hst page) ▸ hfatal) ((hit page) ▸ hempty)
            (by rw [← hit page, ← htc page]; exact hstop), hit page]
        exact ih maxResults (page + 1) (acc ++ (t query perPage page).items)
          (reqs + 1) (sleeps ++ [2])
    · rw [collectLoop_guard_false hg, collectLoop_guard_false hg]

end ExperimentSearch

namespace ExperimentForkSearch

section ForkStepLemmas

variable {α : Type} {service : ForkService α} {owner repo : String}
  {perPage : Nat} {maxForks : Int} {page : Nat} {acc : List α}
  {reqs : Nat} {sleeps : List ℚ} {fuel : Nat}

/-- When the while-guard fails the forks loop returns the state unchanged,
whatever the fuel. -/
theorem listForksLoop_guard_false
    (h : ¬ ((acc.length : Int) < maxForks)) :
    listForksLoop service owner repo perPage maxForks page acc reqs sleeps
      fuel = .ok ⟨acc, reqs, sleeps⟩ := by
  cases fuel with
  | zero => rfl
  | succ fuel => simp [listForksLoop, h]

/-- Any 4xx/5xx status — 403 included — makes list_forks raise
(raise_for_status is called before any status is inspected). -/
theorem listForksLoop_fatal
    (hguard : (acc.length : Int) < maxForks)
    (hlo : 400 ≤ (service owner repo perPage page "stargazers").status)
    (hhi : (service owner repo perPage page "stargazers").status < 600) :
    listForksLoop service owner repo perPage maxForks page acc reqs sleeps
      (fuel + 1)
      = .error (service owner repo perPage page "stargazers").status := by
  simp [listForksLoop, hguard, hlo, hhi]

/-- A page that passes raise_for_status but carries an empty body ends the
forks loop, returning the forks accumulated so far. -/
theorem listForksLoop_empty_page
    (hguard : (acc.length : Int) < maxForks)
    (hfatal : ¬ (400 ≤ (service owner repo perPage page "stargazers").status ∧
      (service owner repo perPage page "stargazers").status < 600))
    (hempty : (service owner repo perPage page "stargazers").items = []) :
    listForksLoop service owner repo perPage maxForks page acc reqs sleeps
      (fuel + 1) = .ok ⟨acc, reqs + 1, sleeps⟩ := by
  simp [listForksLoop, hguard, hfatal, hempty]

/-- A successful page with fewer than per_page items (a short page) ends
the forks loop with the page appended — the loop stops by the short-page
test, no advertised total is consulted. -/
theorem listForksLoop_short_page
    (hguard : (acc.length : Int) < maxForks)
    (hfatal : ¬ (400 ≤ (service owner repo perPage page "stargazers").status ∧
      (service owner repo perPage page "stargazers").status < 600))
    (hne : (service owner repo perPage page "stargazers").items ≠ [])
    (hshort : (service owner repo perPage page "stargazers").items.length
      < perPage) :
    listForksLoop service owner repo perPage maxForks page acc reqs sleeps
      (fuel + 1)
      = .ok ⟨acc ++ (service owner repo perPage page "stargazers").items,
          reqs + 1, sleeps⟩ := by
  have hEmpty :
      ¬ ((service owner repo perPage page "stargazers").items.isEmpty = true) := by
    simpa using hne
  simp only [listForksLoop]
  rw [if_pos hguard, if_neg hfatal, if_neg hEmpty, if_pos hshort]

/-- A successful full page makes the forks loop sleep half a second and
continue with the next page. -/
theorem listForksLoop_continue
    (hguard : (acc.length : Int) < maxForks)
    (hfatal : ¬ (400 ≤ (service owner repo perPage page "stargazers").status ∧
      (service owner repo perPage page "stargazers").status < 600))
    (hne : (service owner repo perPage page "stargazers").items ≠ [])
    (hfull : ¬ ((service owner repo perPage page "stargazers").items.length
      < perPage)) :
    listForksLoop service owner repo perPage maxForks page acc reqs sleeps
      (fuel + 1)
      = listForksLoop service owner repo perPage maxForks (page + 1)
          (acc ++ (service owner repo perPage page "stargazers").items)
          (reqs + 1) (sleeps ++ [1/2]) fuel := by
  have hEmpty :
      ¬ ((service owner repo perPage page "stargazers").items.isEmpty = true) := by
    simpa using hne
  simp only [listForksLoop]
  rw [if_pos hguard, if_neg hfatal, if_neg hEmpty, if_neg hfull]

end ForkStepLemmas

/-- Faithfulness of the fuel embedding of list_forks: adding fuel beyond
the number of forks the while-guard still allows does not change the
outcome. -/
theorem listForksLoop_fuel_irrelevant {α : Type} (service : ForkService α)
    (owner repo : String) (perPage : Nat) (maxForks : Int) :
    ∀ (fuel extra page : Nat) (acc : List α) (reqs : Nat) (sleeps : List ℚ),
      maxForks ≤ (acc.length : Int) + fuel →
      listForksLoop service owner repo perPage maxForks page acc reqs sleeps
          (fuel + extra)
        = listForksLoop service owner repo perPage maxForks page acc reqs
            sleeps fuel := by
  intro fuel
  induction fuel with
  | zero =>
    intro extra page acc reqs sleeps h
    rw [listForksLoop_guard_false (by omega),
      listForksLoop_guard_false (by omega)]
  | succ fuel ih =>
    intro extra page acc reqs sleeps h
    have hstep : fuel + 1 + extra = (fuel + extra) + 1 := by omega
    rw [hstep]
    by_cases hg : (acc.length : Int) < maxForks
    · by_cases hfatal : 400 ≤ (service owner repo perPage page "stargazers").status ∧
          (service owner repo perPage page "stargazers").status < 600
      · rw [listForksLoop_fatal hg hfatal.1 hfatal.2,
          listForksLoop_fatal hg hfatal.1 hfatal.2]
      by_cases hempty : (service owner repo perPage page "stargazers").items = []
      · rw [listForksLoop_empty_page hg hfatal hempty,
          listForksLoop_empty_page hg hfatal hempty]
      by_cases hshort : (service owner repo perPage page "stargazers").items.length
          < perPage
      · rw [listForksLoop_short_page hg hfatal hempty hshort,
          listForksLoop_short_page hg hfatal hempty hshort]
      · rw [listForksLoop_continue hg hfatal hempty hshort,
          listForksLoop_continue hg hfatal hempty hshort]
        have hpos : 0 < (service owner repo perPage page "stargazers").items.length :=
          List.length_pos.mpr hempty
        exact ih extra (page + 1)
          (acc ++ (service owner repo perPage page "stargazers").items)
          (reqs + 1) (sleeps ++ [1/2]) (by simp; omega)
    · rw [listForksLoop_guard_false hg, listForksLoop_guard_false hg]

/-- The loop of search_code in experiment_fork_search.py computes, state
for state and fuel tick for fuel tick, the same value as the loop of
search_code in experiment_search.py. -/
theorem collectLoop_eq_experimentSearch {α : Type} (service : SearchService α)
    (query : String) (perPage : Nat) :
    ∀ (fuel : Nat) (maxResults : Int) (page : Nat) (acc : List α)
      (reqs : Nat) (sleeps : List ℚ),
      collectLoop service query perPage maxResults page acc reqs sleeps fuel
        = ExperimentSearch.collectLoop service query perPage maxResults page
            acc reqs sleeps fuel := by
  intro fuel
  induction fuel with
  | zero => intro maxResults page acc reqs sleeps; rfl
  | succ fuel ih =>
    intro maxResults page acc reqs sleeps
    simp only [collectLoop, ExperimentSearch.collectLoop]
    split_ifs <;> first
      | rfl
      | exact ih maxResults (page + 1)
          (acc ++ (service query perPage page).items) (reqs + 1)
          (sleeps ++ [2])

end ExperimentForkSearch

namespace ExperimentSearch

/-- C1: for every sequence of page responses, if a page request returns the
throttled (403) or query-rejected (422) status, search_code stops the loop
and returns the records accumulated from all earlier pages; and when every
error status the service can emit is 403 or 422, no exception is raised —
the whole run is an ok value. -/
theorem search_throttled_or_rejected_partial_results {α : Type}
    (service : SearchService α) (query : String) (maxResults : Int)
    (hsvc : ∀ page, 400 ≤ (service query 100 page).status →
      (service query 100 page).status = 403 ∨
      (service query 100 page).status = 422) :
    (∃ r : RunResult α, search_code service query maxResults = .ok r)
    ∧ ∀ (page : Nat) (acc : List α) (reqs : Nat) (sleeps : List ℚ)
        (fuel : Nat),
        (acc.length : Int) < maxResults →
        ((service query 100 page).status = 403 ∨
          (service query 100 page).status = 422) →
        collectLoop service query 100 maxResults page acc reqs sleeps
          (fuel + 1) = .ok ⟨acc, reqs + 1, sleeps⟩ := by
  constructor
  · exact collectLoop_no_raise service query 100 maxResults hsvc
      (maxResults.toNat + 1) 1 [] 0 []
  · intro page acc reqs sleeps fuel hguard hst
    exact collectLoop_throttled_or_rejected hguard hst

/-- Witness for C1: a service answering one full page then 403 pages. -/
theorem search_throttled_or_rejected_partial_results_witness :
    (∃ r : RunResult Nat, search_code wsvcC1 "q" 9 = .ok r)
    ∧ collectLoop wsvcC1 "q" 100 9 2 [10, 11, 12] 1 [2] 5
      = .ok ⟨[10, 11, 12], 2, [2]⟩ := by
  have hsvc : ∀ page, 400 ≤ (wsvcC1 "q" 100 page).status →
      (wsvcC1 "q" 100 page).status = 403 ∨
      (wsvcC1 "q" 100 page).status = 422 := by
    intro page hp
    by_cases h : page = 1 <;> simp [wsvcC1, h] at hp ⊢
  exact ⟨(search_throttled_or_rejected_partial_results wsvcC1 "q" 9 hsvc).1,
    (search_throttled_or_rejected_partial_results wsvcC1 "q" 9 hsvc).2
      2 [10, 11, 12] 1 [2] 4 (by norm_num) (Or.inl rfl)⟩

/-- C2: if a page request returns any 4xx/5xx status other than 403 or 422
(for example a 500 server error), search_code propagates it as a raised
HTTPError and returns no partial result sequence — stated for any loop
state, and for the whole collector when page 1 fails. -/
theorem search_other_error_propagates {α : Type}
    (service : SearchService α) (query : String) (maxResults : Int) :
    (∀ (page : Nat) (acc : List α) (reqs : Nat) (sleeps : List ℚ)
        (fuel : Nat),
        (acc.length : Int) < maxResults →
        400 ≤ (service query 100 page).status →
        (service query 100 page).status < 600 →
        (service query 100 page).status ≠ 403 →
        (service query 100 page).status ≠ 422 →
        collectLoop service query 100 maxResults page acc reqs sleeps
          (fuel + 1) = .error (service query 100 page).status)
    ∧ (0 < maxResults →
        400 ≤ (service query 100 1).status →
        (service query 100 1).status < 600 →
        (service query 100 1).status ≠ 403 →
        (service query 100 1).status ≠ 422 →
        search_code service query maxResults
          = .error (service query 100 1).status) := by
  constructor
  · intro page acc reqs sleeps fuel hguard hlo hhi h403 h422
    exact collectLoop_fatal hguard h403 h422 hlo hhi
  · intro hmr hlo hhi h403 h422
    exact collectLoop_fatal (by simpa using hmr) h403 h422 hlo hhi

/-- Witness for C2: a service answering 500 on every page. -/
theorem search_other_error_propagates_witness :
    collectLoop wsvcC2 "q" 100 10 1 [] 0 [] 3 = .error 500
    ∧ search_code wsvcC2 "q" 10 = .error 500 :=
  ⟨(search_other_error_propagates wsvcC2 "q" 10).1 1 [] 0 [] 2 (by norm_num)
      (by norm_num [wsvcC2]) (by norm_num [wsvcC2]) (by norm_num [wsvcC2])
      (by norm_num [wsvcC2]),
    (search_other_error_propagates wsvcC2 "q" 10).2 (by norm_num)
      (by norm_num [wsvcC2]) (by norm_num [wsvcC2]) (by norm_num [wsvcC2])
      (by norm_num [wsvcC2])⟩

/-- C3: search_code never truncates its output to max_results — with
max_results 50 against a service whose pages each contain 100 records it
returns the whole 100-record first page after one request. -/
theorem search_overshoot_not_truncated {α : Type}
    (service : SearchService α) (query : String)
    (hstatus : ∀ page, (service query 100 page).status = 200)
    (hlen : ∀ page, (service query 100 page).items.length = 100) :
    search_code service query 50 = .ok ⟨(service query 100 1).items, 1, []⟩
    ∧ (service query 100 1).items.length = 100 := by
  refine ⟨?_, hlen 1⟩
  have hne : (service query 100 1).items ≠ [] := by
    intro hc
    have := hlen 1
    rw [hc] at this
    simp at this
  have h := @collectLoop_last_page α service query 100 50 1 [] 0 []
    (50 : Int).toNat
    (by norm_num) (by rw [hstatus]; norm_num) (by rw [hstatus]; norm_num)
    (by rw [hstatus]; omega) hne
    (Or.inr (by simp [hlen 1]))
  simpa [search_code] using h

/-- Witness for C3: a service answering a full page of 100 records
everywhere, queried with max_results 50. -/
theorem search_overshoot_not_truncated_witness :
    search_code wsvcC3 "q" 50 = .ok ⟨List.range 100, 1, []⟩
    ∧ (List.range 100).length = 100 :=
  (search_overshoot_not_truncated wsvcC3 "q" (fun _ => rfl)
    (fun _ => by simp [wsvcC3]))

/-- C4: for every sequence of page responses whose bodies lack a
total_count field, search_code treats total_count as 0 (the run equals the
run against the same service with total_count set to 0), the loop still
terminates — at most one page request and no sleep ever happens — and the
step-(e) empty-page exhaustion check stops the loop once no items arrive. -/
theorem search_missing_total_count {α : Type}
    (service : SearchService α) (query : String) (maxResults : Int)
    (hnone : ∀ q pp page, (service q pp page).total_count = none) :
    search_code service query maxResults
      = search_code (withZeroTotal service) query maxResults
    ∧ (∀ r : RunResult α, search_code service query maxResults = .ok r →
        r.requests ≤ 1 ∧ r.sleeps = [])
    ∧ (0 < maxResults → (service query 100 1).status = 200 →
        (service query 100 1).items = [] →
        search_code service query maxResults = .ok ⟨[], 1, []⟩) := by
  refine ⟨?_, ?_, ?_⟩
  · exact collectLoop_congr service (withZeroTotal service) query 100
      (fun page => rfl) (fun page => rfl)
      (fun page => by simp [withZeroTotal, hnone])
      (maxResults.toNat + 1) maxResults 1 [] 0 []
  · intro r hr
    simp only [search_code] at hr
    by_cases hg : ((([] : List α).length : Int) < maxResults)
    · by_cases h403 : (service query 100 1).status = 403
      · rw [collectLoop_throttled_or_rejected hg (Or.inl h403)] at hr
        cases hr
        exact ⟨by norm_num, rfl⟩
      by_cases h422 : (service query 100 1).status = 422
      · rw [collectLoop_throttled_or_rejected hg (Or.inr h422)] at hr
        cases hr
        exact ⟨by norm_num, rfl⟩
      by_cases hfatal : 400 ≤ (service query 100 1).status ∧
          (service query 100 1).status < 600
      · rw [collectLoop_fatal hg h403 h422 hfatal.1 hfatal.2] at hr
        cases hr
      by_cases hempty : (service query 100 1).items = []
      · rw [collectLoop_empty_page hg h403 h422 hfatal hempty] at hr
        cases hr
        exact ⟨by norm_num, rfl⟩
      · rw [collectLoop_last_page hg h403 h422 hfatal hempty
          (Or.inl (by rw [hnone]; simp))] at hr
        cases hr
        exact ⟨by norm_num, rfl⟩
    · rw [collectLoop_guard_false hg] at hr
      cases hr
      exact ⟨by norm_num, rfl⟩
  · intro hmr h200 hempty
    simp only [search_code]
    exact collectLoop_empty_page (by simpa using hmr)
      (by rw [h200]; norm_num) (by rw [h200]; norm_num)
      (by rw [h200]; omega) hempty

/-- Witness for C4: services whose responses lack total_count, one with a
non-empty first page and one with an empty first page. -/
theorem search_missing_total_count_witness :
    search_code wsvcC4 "q" 1000 = search_code (withZeroTotal wsvcC4) "q" 1000
    ∧ search_code wsvcC4b "q" 5 = .ok ⟨[], 1, []⟩ :=
  ⟨(search_missing_total_count wsvcC4 "q" 1000 (fun _ _ _ => rfl)).1,
    (search_missing_total_count wsvcC4b "q" 5 (fun _ _ _ => rfl)).2.2
      (by norm_num) rfl rfl⟩

/-- C5: given 3 pages of 100, 100 and 50 records with total_count 250,
search_code with max_results 250 returns the concatenation of the three
pages — page-then-within-page arrival order, no reordering — issuing
exactly 3 requests (and sleeping twice in between). -/
theorem search_pagination_order {α : Type} (service : SearchService α)
    (query : String) (p1 p2 p3 : List α)
    (hp1 : service query 100 1 = ⟨200, p1, some 250⟩)
    (hp2 : service query 100 2 = ⟨200, p2, some 250⟩)
    (hp3 : service query 100 3 = ⟨200, p3, some 250⟩)
    (hl1 : p1.length = 100) (hl2 : p2.length = 100) (hl3 : p3.length = 50) :
    search_code service query 250 = .ok ⟨p1 ++ p2 ++ p3, 3, [2, 2]⟩ := by
  have hne1 : p1 ≠ [] := by intro hc; rw [hc] at hl1; simp at hl1
  have hne2 : p2 ≠ [] := by intro hc; rw [hc] at hl2; simp at hl2
  have hne3 : p3 ≠ [] := by intro hc; rw [hc] at hl3; simp at hl3
  simp only [search_code]
  rw [collectLoop_continue (by norm_num) (by rw [hp1]; norm_num)
    (by rw [hp1]; norm_num) (by rw [hp1]; simp) (by rw [hp1]; exact hne1)
    (by rw [hp1]; simp [hl1])]
  simp only [hp1, List.nil_append]
  rw [show ((250 : Int).toNat) = 249 + 1 from rfl]
  rw [collectLoop_continue (by simp [hl1]) (by rw [hp2]; norm_num)
    (by rw [hp2]; norm_num) (by rw [hp2]; simp) (by rw [hp2]; exact hne2)
    (by rw [hp2]; simp [hl1, hl2])]
  simp only [hp2]
  rw [show (249 : Nat) = 248 + 1 from rfl]
  rw [collectLoop_last_page (by simp [hl1, hl2]) (by rw [hp3]; norm_num)
    (by rw [hp3]; norm_num) (by rw [hp3]; simp) (by rw [hp3]; exact hne3)
    (Or.inl (by rw [hp3]; simp [hl1, hl2, hl3]))]
  simp [hp3]

/-- Witness for C5: three concrete pages holding the numbers 0..249 in
order. -/
theorem search_pagination_order_witness :
    search_code wsvcC5 "q" 250
      = .ok ⟨List.range 100 ++ (List.range 100).map (· + 100)
          ++ (List.range 50).map (· + 200), 3, [2, 2]⟩ :=
  search_pagination_order wsvcC5 "q" (List.range 100)
    ((List.range 100).map (· + 100)) ((List.range 50).map (· + 200))
    rfl rfl rfl (by simp) (by simp) (by simp)

/-- C6: a successfully fetched page with zero records stops search_code
immediately (exhaustion), returning only what was already accumulated and
issuing no further requests; a query empty on page 1 yields the empty
sequence after exactly one request and no sleep. -/
theorem search_empty_page_stops {α : Type} (service : SearchService α)
    (query : String) (maxResults : Int) :
    (∀ (page : Nat) (acc : List α) (reqs : Nat) (sleeps : List ℚ)
        (fuel : Nat),
        (acc.length : Int) < maxResults →
        (service query 100 page).status = 200 →
        (service query 100 page).items = [] →
        collectLoop service query 100 maxResults page acc reqs sleeps
          (fuel + 1) = .ok ⟨acc, reqs + 1, sleeps⟩)
    ∧ (0 < maxResults → (service query 100 1).status = 200 →
        (service query 100 1).items = [] →
        search_code service query maxResults = .ok ⟨[], 1, []⟩) := by
  constructor
  · intro page acc reqs sleeps fuel hguard h200 hempty
    exact collectLoop_empty_page hguard (by rw [h200]; norm_num)
      (by rw [h200]; norm_num) (by rw [h200]; omega) hempty
  · intro hmr h200 hempty
    simp only [search_code]
    exact collectLoop_empty_page (by simpa using hmr) (by rw [h200]; norm_num)
      (by rw [h200]; norm_num) (by rw [h200]; omega) hempty

/-- Witness for C6: a service whose pages are all successful and empty. -/
theorem search_empty_page_stops_witness :
    collectLoop wsvcC6 "q" 100 10 4 [3, 4] 1 [2] 8 = .ok ⟨[3, 4], 2, [2]⟩
    ∧ search_code wsvcC6 "q" 10 = .ok ⟨[], 1, []⟩ :=
  ⟨(search_empty_page_stops wsvcC6 "q" 10).1 4 [3, 4] 1 [2] 7 (by norm_num)
      rfl rfl,
    (search_empty_page_stops wsvcC6 "q" 10).2 (by norm_num) rfl rfl⟩

/-- C7: for every max_results ≤ 0 and every query, search_code returns the
empty sequence, issuing zero page requests and never sleeping — the loop
body never executes. -/
theorem search_nonpositive_max_results {α : Type}
    (service : SearchService α) (query : String) (maxResults : Int)
    (h : maxResults ≤ 0) :
    search_code service query maxResults = .ok ⟨[], 0, []⟩ := by
  simp only [search_code]
  exact collectLoop_guard_false (by simp; omega)

/-- Witness for C7: max_results 0 and -3 both yield the empty run. -/
theorem search_nonpositive_max_results_witness :
    search_code wsvcC7 "q" 0 = .ok ⟨[], 0, []⟩
    ∧ search_code wsvcC7 "q" (-3) = .ok ⟨[], 0, []⟩ :=
  ⟨search_nonpositive_max_results wsvcC7 "q" 0 (by norm_num),
    search_nonpositive_max_results wsvcC7 "q" (-3) (by norm_num)⟩

/-- C8: the fixed 2-second delay is invoked only between successive page
requests: in every ok run each sleep is 2 seconds and the number of
requests exceeds the number of sleeps by exactly one (or the loop never
ran at all); a collection that stops after its first page — max_results
200, total_count 57 all on page 1 — returns 57 records in 1 request and
invokes no delay. -/
theorem search_delay_only_between_requests :
    (∀ (α : Type) (service : SearchService α) (query : String)
        (maxResults : Int) (r : RunResult α),
        search_code service query maxResults = .ok r →
        (∀ d ∈ r.sleeps, d = (2 : ℚ)) ∧
        (r.requests = r.sleeps.length + 1 ∨
          (r.requests = 0 ∧ r.sleeps = [])))
    ∧ (∀ (α : Type) (service : SearchService α) (query : String),
        (service query 100 1).status = 200 →
        (service query 100 1).items.length = 57 →
        (service query 100 1).total_count = some 57 →
        search_code service query 200
          = .ok ⟨(service query 100 1).items, 1, []⟩) := by
  constructor
  · intro α service query maxResults r hr
    simp only [search_code] at hr
    obtain ⟨k, hsl, hreq⟩ := collectLoop_sleeps_spec service query 100
      maxResults (maxResults.toNat + 1) 1 [] 0 [] r (by simp; omega) hr
    constructor
    · intro d hd
      rw [hsl] at hd
      exact List.eq_of_mem_replicate (by simpa using hd)
    · rcases hreq with h | ⟨hk, h0, hng⟩
      · left
        rw [h, hsl]
        simp
      · right
        exact ⟨h0, by rw [hsl, hk]; simp⟩
  · intro α service query h200 hlen htc
    have hne : (service query 100 1).items ≠ [] := by
      intro hc
      rw [hc] at hlen
      simp at hlen
    have h := @collectLoop_last_page α service query 100 200 1 [] 0 []
      (200 : Int).toNat
      (by norm_num) (by rw [h200]; norm_num) (by rw [h200]; norm_num)
      (by rw [h200]; omega) hne (Or.inl (by rw [htc]; simp [hlen]))
    simpa [search_code] using h

/-- Witness for C8: total_count 57 with all records on page 1, queried
with max_results 200. -/
theorem search_delay_only_between_requests_witness :
    search_code wsvcC8 "q" 200 = .ok ⟨List.range 57, 1, []⟩
    ∧ (∀ d ∈ (RunResult.mk (List.range 57) 1 ([] : List ℚ)).sleeps,
        d = (2 : ℚ)) := by
  have h2 := search_delay_only_between_requests.2 Nat wsvcC8 "q" rfl
    (by simp [wsvcC8]) rfl
  exact ⟨h2, (search_delay_only_between_requests.1 Nat wsvcC8 "q" 200
    ⟨List.range 57, 1, []⟩ h2).1⟩

end ExperimentSearch

namespace ExperimentForkSearch

/-- C9: the two search_code implementations are behaviourally equivalent —
for the same query, max_results and sequence of service responses both
return exactly the same outcome — and their declared defaults for
max_results are 1000 and 100 respectively. -/
theorem search_code_copies_equivalent {α : Type} (service : SearchService α)
    (query : String) (maxResults : Int) :
    ExperimentSearch.search_code service query maxResults
      = search_code service query maxResults
    ∧ ExperimentSearch.search_code service query
      = ExperimentSearch.search_code service query 1000
    ∧ search_code service query = search_code service query 100 := by
  refine ⟨?_, rfl, rfl⟩
  simp only [ExperimentSearch.search_code, search_code]
  exact (collectLoop_eq_experimentSearch service query 100
    (maxResults.toNat + 1) maxResults 1 [] 0 []).symm

/-- C10: list_forks does not follow the partial-result policy of the
search collector: every 4xx/5xx response — the throttled 403 included —
raises and no partial fork list is returned; and it stops by the
short-page test (a successful page with fewer than per_page items ends
the loop with that page appended), not by any advertised total. -/
theorem list_forks_raises_and_short_page_stops {α : Type}
    (service : ForkService α) (owner repo : String) (maxForks : Int) :
    (∀ (page : Nat) (acc : List α) (reqs : Nat) (sleeps : List ℚ)
        (fuel : Nat),
        (acc.length : Int) < maxForks →
        400 ≤ (service owner repo 100 page "stargazers").status →
        (service owner repo 100 page "stargazers").status < 600 →
        listForksLoop service owner repo 100 maxForks page acc reqs sleeps
          (fuel + 1)
          = .error (service owner repo 100 page "stargazers").status)
    ∧ (0 < maxForks →
        (service owner repo 100 1 "stargazers").status = 403 →
        list_forks service owner repo maxForks = .error 403)
    ∧ (∀ (page : Nat) (acc : List α) (reqs : Nat) (sleeps : List ℚ)
        (fuel : Nat),
        (acc.length : Int) < maxForks →
        (service owner repo 100 page "stargazers").status = 200 →
        (service owner repo 100 page "stargazers").items ≠ [] →
        (service owner repo 100 page "stargazers").items.length < 100 →
        listForksLoop service owner repo 100 maxForks page acc reqs sleeps
          (fuel + 1)
          = .ok ⟨acc ++ (service owner repo 100 page "stargazers").items,
              reqs + 1, sleeps⟩) := by
  refine ⟨?_, ?_, ?_⟩
  · intro page acc reqs sleeps fuel hguard hlo hhi
    exact listForksLoop_fatal hguard hlo hhi
  · intro hmf h403
    simp only [list_forks]
    rw [listForksLoop_fatal (by simpa using hmf) (by rw [h403]; norm_num)
      (by rw [h403]; norm_num), h403]
  · intro page acc reqs sleeps fuel hguard h200 hne hshort
    exact listForksLoop_short_page hguard (by rw [h200]; omega) hne hshort

/-- Witness for C10: a throttled forks service raises, a single short page
of 30 forks ends the listing. -/
theorem list_forks_raises_and_short_page_stops_witness :
    list_forks wsvcC10a "o" "r" 100 = .error 403
    ∧ listForksLoop wsvcC10b "o" "r" 100 50 1 [] 0 [] 9
      = .ok ⟨List.range 30, 1, []⟩ :=
  ⟨(list_forks_raises_and_short_page_stops wsvcC10a "o" "r" 100).2.1
      (by norm_num) rfl,
    (list_forks_raises_and_short_page_stops wsvcC10b "o" "r" 50).2.2
      1 [] 0 [] 8 (by norm_num) rfl (by simp [wsvcC10b]) (by simp [wsvcC10b])⟩

end ExperimentForkSearch

end LimaCatalog
